import Mathlib

/-!
Verification development for the customer-service tool module
(`src/customer_service/tools/tools.py`).

The module's tool functions are shallowly embedded below.  External
services (the compute/billing catalog, the CRM, the SMTP relay, the
ADK `ToolContext` input channel) are modelled as environment records
supplied to each function; Python exceptions are modelled with
`Except`/error sums; the unbounded `while` loops of the source are
modelled with an explicit fuel parameter, so that divergence appears
as fuel exhaustion at every fuel.  Monetary amounts are modelled as
rationals: both sides of every claim apply the identical arithmetic
expressions of the source, so exact rational arithmetic tracks the
source's float arithmetic wherever claims compare the two.
-/

/- The Batteries rational-number operations are `@[irreducible]`, which
blocks `decide` from evaluating concrete runs; restore the default
reducibility locally so concrete carts and filters compute. -/
attribute [local semireducible] Rat.mul Rat.add Rat.sub Rat.inv

/-- Python exceptions raised by the embedded code. -/
inductive PyErr where
  | keyError
  | indexError
  | attrError
  | valueError
  deriving DecidableEq, Repr

/-! ## Cart calculator (`retrieve_cart_information`, tools.py lines 154-243) -/

/-- A cart line item, as built by the dict literals at lines 196-201 and
226-231 of tools.py. -/
structure CartItem where
  product_id : String
  name : String
  quantity : Nat
  monthly_cost : ℚ
  deriving DecidableEq, Repr

/-- The mutable locals `cart_items` / `cart_subtotal` of
`retrieve_cart_information`. -/
structure CartState where
  items : List CartItem
  subtotal : ℚ
  deriving DecidableEq, Repr

/-- A resource dictionary returned by the compute catalog.  Fields are
optional because Python dict indexing (`instance['machineType']`) raises
`KeyError` when the key is absent; the first while loop of the source
scans disk dictionaries (which carry `type`/`sizeGb`, not `machineType`)
with the instance code, so absence matters. -/
structure Res where
  labels : List (String × String)
  machineType : Option String
  name : Option String
  typ : Option String
  sizeGb : Option Int
  deriving DecidableEq, Repr

/-- One page of a paginated catalog listing: the `items` of the response
and the continuation token (`nextPageToken`), modelled as the index of
the page it designates. -/
structure Page where
  items : List Res
  nextToken : Option Nat
  deriving DecidableEq, Repr

/-- A pending list request: which collection it addresses (`true` = disks,
`false` = instances) and the page index its token designates. -/
abbrev Req := Bool × Nat

/-- The external world seen by the cart calculator: the paginated
instance listing, the paginated disk listing (both for the zone entered
via `ToolContext.get_input`), and the billing catalog
(`billing.services().skus().list(filter resource.name = t)`), modelled
as the list of first-tier unit-price nanos of each returned SKU. -/
structure CartEnv where
  instPages : List Page
  diskPages : List Page
  pricing : String → List Int

/-- `request.execute()`: fetch the page a request designates.  A request
built by the client always designates an existing page; out-of-range
indices yield an empty final page. -/
def executeEnv (env : CartEnv) (q : Req) : Page :=
  (if q.1 then env.diskPages else env.instPages).getD q.2 { items := [], nextToken := none }

/-- Python dict `.get('customer_id')` on a labels mapping. -/
def lookupCustomerId : List (String × String) → Option String
  | [] => none
  | (k, v) :: rest => if k = "customer_id" then some v else lookupCustomerId rest

/-- `instance.get('labels', {}).get('customer_id')`. -/
def labelCustomer (r : Res) : Option String :=
  lookupCustomerId r.labels

/-- The characters after the last '/' (accumulator reversed). -/
def lastSegChars : List Char → List Char → List Char
  | [], acc => acc.reverse
  | c :: cs, acc => if c = '/' then lastSegChars cs [] else lastSegChars cs (c :: acc)

/-- `s.split('/')[-1]` on a resource URL: the segment after the final
slash (the whole string when no slash occurs). -/
def lastSeg (s : String) : String :=
  ⟨lastSegChars s.data []⟩

/-- `list_next(previous_request, previous_response)` of the generated API
client: it first consults the previous response's continuation token
(returning `None` when absent) and only then copies the previous request,
keeping its collection and replacing its page token; copying a `None`
request would raise `AttributeError` (unreachable in practice, since the
request only becomes `None` when the very same response has no token). -/
def listNextE (prev : Option Req) (resp : Page) : Except PyErr (Option Req) :=
  match resp.nextToken with
  | none => Except.ok none
  | some t =>
    match prev with
    | none => Except.error PyErr.attrError
    | some r => Except.ok (some (r.1, t))

/-- The instance-branch body, tools.py lines 183-202: read
`machineType` (KeyError when absent), look up the billing SKUs for its
last path segment (`['skus'][0]...['nanos']` raises IndexError on an
empty SKU list), read `name`, append the line item and add its monthly
cost to the running subtotal.  On an exception the locals are unchanged
(every raise precedes the append). -/
def instStep (env : CartEnv) (r : Res) (st : CartState) : CartState × Option PyErr :=
  match r.machineType with
  | none => (st, some PyErr.keyError)
  | some mt =>
    let machine_type := lastSeg mt
    match (env.pricing machine_type).head? with
    | none => (st, some PyErr.indexError)
    | some nanos =>
      match r.name with
      | none => (st, some PyErr.keyError)
      | some nm =>
        let monthly_cost : ℚ := (nanos : ℚ) / 1000000000 * 730
        ({ items := st.items ++ [{ product_id := machine_type, name := nm,
                                   quantity := 1, monthly_cost := monthly_cost }],
           subtotal := st.subtotal + monthly_cost }, none)

/-- The disk-branch body, tools.py lines 212-232: read `type` and
`sizeGb` (KeyError when absent), look up billing SKUs (IndexError when
empty), append the line item and add its monthly cost. -/
def diskStep (env : CartEnv) (r : Res) (st : CartState) : CartState × Option PyErr :=
  match r.typ with
  | none => (st, some PyErr.keyError)
  | some t =>
    let disk_type := lastSeg t
    match r.sizeGb with
    | none => (st, some PyErr.keyError)
    | some sz =>
      match (env.pricing disk_type).head? with
      | none => (st, some PyErr.indexError)
      | some nanos =>
        let monthly_cost : ℚ := (nanos : ℚ) / 1000000000 * (sz : ℚ)
        ({ items := st.items ++ [{ product_id := disk_type,
                                   name := disk_type ++ " " ++ toString sz ++ "GB",
                                   quantity := 1, monthly_cost := monthly_cost }],
           subtotal := st.subtotal + monthly_cost }, none)

/-- Lines 182-202: the `if` guard around the instance branch.  A
resource whose `customer_id` label differs from the requested customer
is skipped without any effect. -/
def instOrSkip (env : CartEnv) (cid : String) (r : Res) (st : CartState) :
    CartState × Option PyErr :=
  if labelCustomer r = some cid then instStep env r st else (st, none)

/-- Lines 211-232: the `if` guard around the disk branch. -/
def diskOrSkip (env : CartEnv) (cid : String) (r : Res) (st : CartState) :
    CartState × Option PyErr :=
  if labelCustomer r = some cid then diskStep env r st else (st, none)

/-- The `for instance in response.get('items', [])` loop of the first
while loop (lines 181-204).  Note the source's mis-nesting: the
`request = compute.instances().list_next(...)` assignment sits inside
this for loop, so it runs once per item (with the page response fixed)
and its final value is then discarded by line 207. -/
def procInstItems (env : CartEnv) (cid : String) (resp : Page) :
    List Res → Option Req → CartState → CartState × Option Req × Option PyErr
  | [], req, st => (st, req, none)
  | r :: rs, req, st =>
    match instOrSkip env cid r st with
    | (st', some e) => (st', req, some e)
    | (st', none) =>
      match listNextE req resp with
      | Except.error e => (st', req, some e)
      | Except.ok req' => procInstItems env cid resp rs req' st'

/-- The `for disk in response.get('items', [])` loop of the second
while loop (lines 210-232); it does not touch `request`. -/
def procDiskItems (env : CartEnv) (cid : String) :
    List Res → CartState → CartState × Option PyErr
  | [], st => (st, none)
  | r :: rs, st =>
    match diskOrSkip env cid r st with
    | (st', some e) => (st', some e)
    | (st', none) => procDiskItems env cid rs st'

/-- One iteration of the first while loop (lines 179-207): execute the
pending request, scan its items with the instance code, and then -
unconditionally, still inside the while body - overwrite `request` with
a fresh first-page disks listing (line 207).  The continuation request
threaded through the for loop is discarded. -/
def iter1 (env : CartEnv) (cid : String) (r : Req) (st : CartState) :
    CartState × Option Req × Option PyErr :=
  let resp := executeEnv env r
  match procInstItems env cid resp resp.items (some r) st with
  | (st', _, some e) => (st', some r, some e)
  | (st', _, none) => (st', some (true, 0), none)

/-- One iteration of the second while loop (lines 208-234): execute the
pending request, scan its items with the disk code, then follow the
response's continuation token (lines 233-234). -/
def iter2 (env : CartEnv) (cid : String) (r : Req) (st : CartState) :
    CartState × Option Req × Option PyErr :=
  let resp := executeEnv env r
  match procDiskItems env cid resp.items st with
  | (st', some e) => (st', some r, some e)
  | (st', none) =>
    match listNextE (some r) resp with
    | Except.error e => (st', some r, some e)
    | Except.ok req' => (st', req', none)

/-- Outcome of running one of the while loops for a bounded number of
iterations: the locals at the end, whether the loop condition became
false, and the pending exception if one was raised. -/
structure LoopOut where
  st : CartState
  req : Option Req
  exited : Bool
  err : Option PyErr
  deriving DecidableEq, Repr

/-- The first while loop (`while request is not None`, line 179), with
fuel bounding the number of iterations. -/
def loop1 (env : CartEnv) (cid : String) : Nat → Option Req → CartState → LoopOut
  | _, none, st => { st := st, req := none, exited := true, err := none }
  | 0, some r, st => { st := st, req := some r, exited := false, err := none }
  | n + 1, some r, st =>
    match iter1 env cid r st with
    | (st', _, some e) => { st := st', req := some r, exited := false, err := some e }
    | (st', req', none) => loop1 env cid n req' st'

/-- The second while loop (`while request is not None`, line 208).  It
reuses the `request` variable left by the first loop without
reinitialising it. -/
def loop2 (env : CartEnv) (cid : String) : Nat → Option Req → CartState → LoopOut
  | _, none, st => { st := st, req := none, exited := true, err := none }
  | 0, some r, st => { st := st, req := some r, exited := false, err := none }
  | n + 1, some r, st =>
    match iter2 env cid r st with
    | (st', _, some e) => { st := st', req := some r, exited := false, err := some e }
    | (st', req', none) => loop2 env cid n req' st'

/-- The returned cart dictionary (lines 236-239). -/
structure Cart where
  items : List CartItem
  subtotal : ℚ
  deriving DecidableEq, Repr

/-- How a bounded run of `retrieve_cart_information` ended: the function
returned a cart, an exception was raised (the outer `except` at lines
241-243 logs and re-raises, so the exception propagates), or the fuel
ran out with the loops still running. -/
inductive RunStatus where
  | returned : Cart → RunStatus
  | raised : PyErr → RunStatus
  | outOfFuel : RunStatus
  deriving DecidableEq, Repr

/-- Classify the end of the second while loop: the `return` at lines
236-239 is reached only when that loop's condition became false. -/
def runAfterLoop2 (o2 : LoopOut) : CartState × RunStatus :=
  match o2.err with
  | some e => (o2.st, RunStatus.raised e)
  | none =>
    if o2.exited then
      (o2.st, RunStatus.returned { items := o2.st.items, subtotal := o2.st.subtotal })
    else (o2.st, RunStatus.outOfFuel)

/-- Continue after the first while loop: when it exited normally, run
the second while loop on the `request` variable it left behind
(necessarily `None`, since that is the loop's exit condition). -/
def runAfterLoop1 (env : CartEnv) (cid : String) (fuel : Nat) (o1 : LoopOut) :
    CartState × RunStatus :=
  match o1.err with
  | some e => (o1.st, RunStatus.raised e)
  | none =>
    if o1.exited then runAfterLoop2 (loop2 env cid fuel o1.req o1.st)
    else (o1.st, RunStatus.outOfFuel)

/-- `retrieve_cart_information(customer_id)` (tools.py lines 154-243),
run with the given fuel on each while loop.  The first component is the
cart state (`cart_items`, `cart_subtotal`) at the point the run stopped;
the second is how it stopped. -/
def retrieveCartRun (env : CartEnv) (cid : String) (fuel : Nat) : CartState × RunStatus :=
  runAfterLoop1 env cid fuel
    (loop1 env cid fuel (some (false, 0)) { items := [], subtotal := 0 })

/-- `sum(item.monthly_cost for item in items)`. -/
def sumMonthly (l : List CartItem) : ℚ :=
  (l.map CartItem.monthly_cost).sum

/-- The line item the instance branch would build from resource `r`, if
it completes without an exception. -/
def instItemOf (env : CartEnv) (r : Res) : Option CartItem :=
  r.machineType.bind fun mt =>
    ((env.pricing (lastSeg mt)).head?).bind fun nanos =>
      r.name.map fun nm =>
        { product_id := lastSeg mt, name := nm, quantity := 1,
          monthly_cost := (nanos : ℚ) / 1000000000 * 730 }

/-- The line item the disk branch would build from resource `r`, if it
completes without an exception. -/
def diskItemOf (env : CartEnv) (r : Res) : Option CartItem :=
  r.typ.bind fun t =>
    r.sizeGb.bind fun sz =>
      ((env.pricing (lastSeg t)).head?).map fun nanos =>
        { product_id := lastSeg t, name := lastSeg t ++ " " ++ toString sz ++ "GB",
          quantity := 1,
          monthly_cost := (nanos : ℚ) / 1000000000 * (sz : ℚ) }

/-- Every resource dictionary the catalog can ever serve. -/
def allRes (env : CartEnv) : List Res :=
  (env.instPages.map Page.items).flatten ++ (env.diskPages.map Page.items).flatten

/-- The item `it` was produced from some catalog resource whose
`customer_id` label equals the requested customer identifier. -/
def fromMatched (env : CartEnv) (cid : String) (it : CartItem) : Prop :=
  ∃ r, r ∈ allRes env ∧ labelCustomer r = some cid ∧
    (instItemOf env r = some it ∨ diskItemOf env r = some it)

/-! ### Structural lemmas about the cart calculator -/

lemma sumMonthly_nil : sumMonthly [] = 0 := rfl

lemma sumMonthly_append (a b : List CartItem) :
    sumMonthly (a ++ b) = sumMonthly a + sumMonthly b := by
  simp [sumMonthly]

lemma sumMonthly_cons (x : CartItem) (l : List CartItem) :
    sumMonthly (x :: l) = x.monthly_cost + sumMonthly l := by
  simp [sumMonthly]

lemma instStep_spec (env : CartEnv) (r : Res) (st : CartState) :
    (instStep env r st).1 = st ∨
    ∃ it, instItemOf env r = some it ∧
      instStep env r st =
        ({ items := st.items ++ [it], subtotal := st.subtotal + it.monthly_cost }, none) := by
  rcases hmt : r.machineType with _ | mt
  · left
    simp [instStep, hmt]
  · rcases hp : (env.pricing (lastSeg mt)).head? with _ | nanos
    · left
      simp [instStep, hmt, hp]
    · rcases hn : r.name with _ | nm
      · left
        simp [instStep, hmt, hp, hn]
      · right
        refine ⟨{ product_id := lastSeg mt, name := nm, quantity := 1,
                  monthly_cost := (nanos : ℚ) / 1000000000 * 730 }, ?_, ?_⟩
        · simp [instItemOf, hmt, hp, hn]
        · simp [instStep, hmt, hp, hn]

lemma diskStep_spec (env : CartEnv) (r : Res) (st : CartState) :
    (diskStep env r st).1 = st ∨
    ∃ it, diskItemOf env r = some it ∧
      diskStep env r st =
        ({ items := st.items ++ [it], subtotal := st.subtotal + it.monthly_cost }, none) := by
  rcases ht : r.typ with _ | t
  · left
    simp [diskStep, ht]
  · rcases hs : r.sizeGb with _ | sz
    · left
      simp [diskStep, ht, hs]
    · rcases hp : (env.pricing (lastSeg t)).head? with _ | nanos
      · left
        simp [diskStep, ht, hs, hp]
      · right
        refine ⟨{ product_id := lastSeg t, name := lastSeg t ++ " " ++ toString sz ++ "GB",
                  quantity := 1, monthly_cost := (nanos : ℚ) / 1000000000 * (sz : ℚ) }, ?_, ?_⟩
        · simp [diskItemOf, ht, hs, hp]
        · simp [diskStep, ht, hs, hp]

lemma instOrSkip_spec (env : CartEnv) (cid : String) (r : Res) (st : CartState) :
    (instOrSkip env cid r st).1 = st ∨
    ∃ it, labelCustomer r = some cid ∧ instItemOf env r = some it ∧
      instOrSkip env cid r st =
        ({ items := st.items ++ [it], subtotal := st.subtotal + it.monthly_cost }, none) := by
  unfold instOrSkip
  by_cases h : labelCustomer r = some cid
  · rw [if_pos h]
    rcases instStep_spec env r st with h1 | ⟨it, h2, h3⟩
    · exact Or.inl h1
    · exact Or.inr ⟨it, h, h2, h3⟩
  · rw [if_neg h]
    exact Or.inl rfl

lemma diskOrSkip_spec (env : CartEnv) (cid : String) (r : Res) (st : CartState) :
    (diskOrSkip env cid r st).1 = st ∨
    ∃ it, labelCustomer r = some cid ∧ diskItemOf env r = some it ∧
      diskOrSkip env cid r st =
        ({ items := st.items ++ [it], subtotal := st.subtotal + it.monthly_cost }, none) := by
  unfold diskOrSkip
  by_cases h : labelCustomer r = some cid
  · rw [if_pos h]
    rcases diskStep_spec env r st with h1 | ⟨it, h2, h3⟩
    · exact Or.inl h1
    · exact Or.inr ⟨it, h, h2, h3⟩
  · rw [if_neg h]
    exact Or.inl rfl

lemma procInstItems_spec (env : CartEnv) (cid : String) (resp : Page) :
    ∀ (rs : List Res) (req : Option Req) (st : CartState),
      ∃ ex, (procInstItems env cid resp rs req st).1 =
          { items := st.items ++ ex, subtotal := st.subtotal + sumMonthly ex } ∧
        ∀ it ∈ ex, ∃ r, r ∈ rs ∧ labelCustomer r = some cid ∧ instItemOf env r = some it := by
  intro rs
  induction rs with
  | nil =>
    intro req st
    refine ⟨[], ?_, by simp⟩
    simp [procInstItems, sumMonthly]
  | cons r rs ih =>
    intro req st
    cases hx : instOrSkip env cid r st with
    | mk st1 e =>
      rcases instOrSkip_spec env cid r st with hskip | ⟨it, hlab, hitem, heq⟩
      · -- the head resource contributed nothing
        rw [hx] at hskip
        simp only at hskip
        subst hskip
        cases e with
        | some err =>
          refine ⟨[], ?_, by simp⟩
          simp [procInstItems, hx, sumMonthly]
        | none =>
          cases hln : listNextE req resp with
          | error err =>
            refine ⟨[], ?_, by simp⟩
            simp [procInstItems, hx, hln, sumMonthly]
          | ok req' =>
            obtain ⟨ex, h1, h2⟩ := ih req' st1
            refine ⟨ex, ?_, ?_⟩
            · simp only [procInstItems, hx, hln]
              exact h1
            · intro x hxm
              obtain ⟨r0, hr0, hr1, hr2⟩ := h2 x hxm
              exact ⟨r0, List.mem_cons_of_mem _ hr0, hr1, hr2⟩
      · -- the head resource appended one item
        rw [hx] at heq
        injection heq with heq1 heq2
        subst heq1
        subst heq2
        cases hln : listNextE req resp with
        | error err =>
          refine ⟨[it], ?_, ?_⟩
          · simp [procInstItems, hx, hln, sumMonthly]
          · intro x hxm
            rw [List.mem_singleton] at hxm
            subst hxm
            exact ⟨r, List.mem_cons_self r rs, hlab, hitem⟩
        | ok req' =>
          obtain ⟨ex, h1, h2⟩ := ih req'
            { items := st.items ++ [it], subtotal := st.subtotal + it.monthly_cost }
          refine ⟨it :: ex, ?_, ?_⟩
          · simp only [procInstItems, hx, hln]
            rw [h1]
            simp [sumMonthly_cons, add_assoc]
          · intro x hxm
            rcases List.mem_cons.mp hxm with hxm | hxm
            · subst hxm
              exact ⟨r, List.mem_cons_self r rs, hlab, hitem⟩
            · obtain ⟨r0, hr0, hr1, hr2⟩ := h2 x hxm
              exact ⟨r0, List.mem_cons_of_mem _ hr0, hr1, hr2⟩

lemma procDiskItems_spec (env : CartEnv) (cid : String) :
    ∀ (rs : List Res) (st : CartState),
      ∃ ex, (procDiskItems env cid rs st).1 =
          { items := st.items ++ ex, subtotal := st.subtotal + sumMonthly ex } ∧
        ∀ it ∈ ex, ∃ r, r ∈ rs ∧ labelCustomer r = some cid ∧ diskItemOf env r = some it := by
  intro rs
  induction rs with
  | nil =>
    intro st
    refine ⟨[], ?_, by simp⟩
    simp [procDiskItems, sumMonthly]
  | cons r rs ih =>
    intro st
    cases hx : diskOrSkip env cid r st with
    | mk st1 e =>
      rcases diskOrSkip_spec env cid r st with hskip | ⟨it, hlab, hitem, heq⟩
      · rw [hx] at hskip
        simp only at hskip
        subst hskip
        cases e with
        | some err =>
          refine ⟨[], ?_, by simp⟩
          simp [procDiskItems, hx, sumMonthly]
        | none =>
          obtain ⟨ex, h1, h2⟩ := ih st1
          refine ⟨ex, ?_, ?_⟩
          · simp only [procDiskItems, hx]
            exact h1
          · intro x hxm
            obtain ⟨r0, hr0, hr1, hr2⟩ := h2 x hxm
            exact ⟨r0, List.mem_cons_of_mem _ hr0, hr1, hr2⟩
      · rw [hx] at heq
        injection heq with heq1 heq2
        subst heq1
        subst heq2
        obtain ⟨ex, h1, h2⟩ := ih
          { items := st.items ++ [it], subtotal := st.subtotal + it.monthly_cost }
        refine ⟨it :: ex, ?_, ?_⟩
        · simp only [procDiskItems, hx]
          rw [h1]
          simp [sumMonthly_cons, add_assoc]
        · intro x hxm
          rcases List.mem_cons.mp hxm with hxm | hxm
          · subst hxm
            exact ⟨r, List.mem_cons_self r rs, hlab, hitem⟩
          · obtain ⟨r0, hr0, hr1, hr2⟩ := h2 x hxm
            exact ⟨r0, List.mem_cons_of_mem _ hr0, hr1, hr2⟩

lemma mem_getD_pages (r : Res) :
    ∀ (l : List Page) (i : Nat),
      r ∈ (l.getD i { items := [], nextToken := none }).items →
      r ∈ (l.map Page.items).flatten
  | [], i, h => by
    simp [List.getD] at h
  | p :: l, 0, h => by
    simp only [List.getD_cons_zero] at h
    simp only [List.map_cons, List.flatten_cons, List.mem_append]
    exact Or.inl h
  | p :: l, i + 1, h => by
    simp only [List.getD_cons_succ] at h
    simp only [List.map_cons, List.flatten_cons, List.mem_append]
    exact Or.inr (mem_getD_pages r l i h)

lemma executeEnv_mem (env : CartEnv) (q : Req) (r : Res)
    (h : r ∈ (executeEnv env q).items) : r ∈ allRes env := by
  unfold executeEnv at h
  unfold allRes
  rcases q with ⟨b, i⟩
  cases b with
  | false =>
    simp only [Bool.false_eq_true, if_neg] at h
    exact List.mem_append.mpr (Or.inl (mem_getD_pages r env.instPages i h))
  | true =>
    simp only [if_pos] at h
    exact List.mem_append.mpr (Or.inr (mem_getD_pages r env.diskPages i h))

lemma iter1_spec (env : CartEnv) (cid : String) (q : Req) (st : CartState) :
    ∃ ex, (iter1 env cid q st).1 =
        { items := st.items ++ ex, subtotal := st.subtotal + sumMonthly ex } ∧
      ∀ it ∈ ex, ∃ r, r ∈ allRes env ∧ labelCustomer r = some cid ∧
        instItemOf env r = some it := by
  obtain ⟨ex, h1, h2⟩ :=
    procInstItems_spec env cid (executeEnv env q) (executeEnv env q).items (some q) st
  refine ⟨ex, ?_, ?_⟩
  · unfold iter1
    rcases hx : procInstItems env cid (executeEnv env q) (executeEnv env q).items (some q) st
      with ⟨st', rq, e⟩
    rw [hx] at h1
    simp only at h1
    cases e with
    | some err =>
      simp only [hx]
      exact h1
    | none =>
      simp only [hx]
      exact h1
  · intro it hit
    obtain ⟨r, hr, hl, hi⟩ := h2 it hit
    exact ⟨r, executeEnv_mem env q r hr, hl, hi⟩

lemma iter2_spec (env : CartEnv) (cid : String) (q : Req) (st : CartState) :
    ∃ ex, (iter2 env cid q st).1 =
        { items := st.items ++ ex, subtotal := st.subtotal + sumMonthly ex } ∧
      ∀ it ∈ ex, ∃ r, r ∈ allRes env ∧ labelCustomer r = some cid ∧
        diskItemOf env r = some it := by
  obtain ⟨ex, h1, h2⟩ := procDiskItems_spec env cid (executeEnv env q).items st
  refine ⟨ex, ?_, ?_⟩
  · unfold iter2
    rcases hx : procDiskItems env cid (executeEnv env q).items st with ⟨st', e⟩
    rw [hx] at h1
    simp only at h1
    cases e with
    | some err =>
      simp only [hx]
      exact h1
    | none =>
      cases hln : listNextE (some q) (executeEnv env q) with
      | error err =>
        simp only [hx, hln]
        exact h1
      | ok req' =>
        simp only [hx, hln]
        exact h1
  · intro it hit
    obtain ⟨r, hr, hl, hi⟩ := h2 it hit
    exact ⟨r, executeEnv_mem env q r hr, hl, hi⟩

lemma loop1_spec (env : CartEnv) (cid : String) :
    ∀ (fuel : Nat) (req : Option Req) (st : CartState),
      ∃ ex, (loop1 env cid fuel req st).st =
          { items := st.items ++ ex, subtotal := st.subtotal + sumMonthly ex } ∧
        ∀ it ∈ ex, ∃ r, r ∈ allRes env ∧ labelCustomer r = some cid ∧
          instItemOf env r = some it := by
  intro fuel
  induction fuel with
  | zero =>
    intro req st
    refine ⟨[], ?_, by simp⟩
    cases req with
    | none => simp [loop1, sumMonthly]
    | some r => simp [loop1, sumMonthly]
  | succ n ih =>
    intro req st
    cases req with
    | none =>
      refine ⟨[], ?_, by simp⟩
      simp [loop1, sumMonthly]
    | some r =>
      obtain ⟨ex1, h1, p1⟩ := iter1_spec env cid r st
      rcases hx : iter1 env cid r st with ⟨st', rq, e⟩
      rw [hx] at h1
      simp only at h1
      cases e with
      | some err =>
        refine ⟨ex1, ?_, p1⟩
        simp only [loop1, hx]
        exact h1
      | none =>
        obtain ⟨ex2, h2, p2⟩ := ih rq st'
        refine ⟨ex1 ++ ex2, ?_, ?_⟩
        · simp only [loop1, hx]
          rw [h2, h1]
          simp [sumMonthly_append, add_assoc]
        · intro it hit
          rcases List.mem_append.mp hit with hit | hit
          · exact p1 it hit
          · exact p2 it hit

lemma loop2_spec (env : CartEnv) (cid : String) :
    ∀ (fuel : Nat) (req : Option Req) (st : CartState),
      ∃ ex, (loop2 env cid fuel req st).st =
          { items := st.items ++ ex, subtotal := st.subtotal + sumMonthly ex } ∧
        ∀ it ∈ ex, ∃ r, r ∈ allRes env ∧ labelCustomer r = some cid ∧
          diskItemOf env r = some it := by
  intro fuel
  induction fuel with
  | zero =>
    intro req st
    refine ⟨[], ?_, by simp⟩
    cases req with
    | none => simp [loop2, sumMonthly]
    | some r => simp [loop2, sumMonthly]
  | succ n ih =>
    intro req st
    cases req with
    | none =>
      refine ⟨[], ?_, by simp⟩
      simp [loop2, sumMonthly]
    | some r =>
      obtain ⟨ex1, h1, p1⟩ := iter2_spec env cid r st
      rcases hx : iter2 env cid r st with ⟨st', rq, e⟩
      rw [hx] at h1
      simp only at h1
      cases e with
      | some err =>
        refine ⟨ex1, ?_, p1⟩
        simp only [loop2, hx]
        exact h1
      | none =>
        obtain ⟨ex2, h2, p2⟩ := ih rq st'
        refine ⟨ex1 ++ ex2, ?_, ?_⟩
        · simp only [loop2, hx]
          rw [h2, h1]
          simp [sumMonthly_append, add_assoc]
        · intro it hit
          rcases List.mem_append.mp hit with hit | hit
          · exact p1 it hit
          · exact p2 it hit

lemma runAfterLoop2_fst (o2 : LoopOut) : (runAfterLoop2 o2).1 = o2.st := by
  unfold runAfterLoop2
  rcases o2.err with _ | e
  · by_cases h : o2.exited <;> simp [h]
  · simp

lemma runAfterLoop1_fst (env : CartEnv) (cid : String) (fuel : Nat) (o1 : LoopOut) :
    (runAfterLoop1 env cid fuel o1).1 = o1.st ∨
    (runAfterLoop1 env cid fuel o1).1 = (loop2 env cid fuel o1.req o1.st).st := by
  unfold runAfterLoop1
  rcases o1.err with _ | e
  · by_cases h : o1.exited
    · simp [h, runAfterLoop2_fst]
    · simp [h]
  · simp

lemma retrieveCartRun_spec (env : CartEnv) (cid : String) (fuel : Nat) :
    ∃ ex, (retrieveCartRun env cid fuel).1 = { items := ex, subtotal := sumMonthly ex } ∧
      ∀ it ∈ ex, fromMatched env cid it := by
  obtain ⟨ex1, h1, p1⟩ :=
    loop1_spec env cid fuel (some (false, 0)) { items := [], subtotal := 0 }
  simp only [List.nil_append, zero_add] at h1
  rcases runAfterLoop1_fst env cid fuel
      (loop1 env cid fuel (some (false, 0)) { items := [], subtotal := 0 }) with hf | hf
  · refine ⟨ex1, ?_, ?_⟩
    · rw [retrieveCartRun, hf, h1]
    · intro it hit
      obtain ⟨r, hr, hl, hi⟩ := p1 it hit
      exact ⟨r, hr, hl, Or.inl hi⟩
  · obtain ⟨ex2, h2, p2⟩ := loop2_spec env cid fuel
      (loop1 env cid fuel (some (false, 0)) { items := [], subtotal := 0 }).req
      (loop1 env cid fuel (some (false, 0)) { items := [], subtotal := 0 }).st
    refine ⟨ex1 ++ ex2, ?_, ?_⟩
    · rw [retrieveCartRun, hf, h2, h1]
      simp [sumMonthly_append]
    · intro it hit
      rcases List.mem_append.mp hit with hit | hit
      · obtain ⟨r, hr, hl, hi⟩ := p1 it hit
        exact ⟨r, hr, hl, Or.inl hi⟩
      · obtain ⟨r, hr, hl, hi⟩ := p2 it hit
        exact ⟨r, hr, hl, Or.inr hi⟩

lemma instItemOf_quantity (env : CartEnv) (r : Res) (it : CartItem)
    (h : instItemOf env r = some it) : it.quantity = 1 := by
  unfold instItemOf at h
  simp only [Option.bind_eq_some, Option.map_eq_some'] at h
  obtain ⟨mt, hmt, nanos, hp, nm, hn, h⟩ := h
  rw [← h]

lemma diskItemOf_quantity (env : CartEnv) (r : Res) (it : CartItem)
    (h : diskItemOf env r = some it) : it.quantity = 1 := by
  unfold diskItemOf at h
  simp only [Option.bind_eq_some, Option.map_eq_some'] at h
  obtain ⟨t, ht, sz, hs, nanos, hp, h⟩ := h
  rw [← h]

lemma fromMatched_quantity (env : CartEnv) (cid : String) (it : CartItem)
    (h : fromMatched env cid it) : it.quantity = 1 := by
  obtain ⟨r, _, _, hi | hi⟩ := h
  · exact instItemOf_quantity env r it hi
  · exact diskItemOf_quantity env r it hi

/-! ### Claims about the cart calculator -/

/-- C1: for every result returned by `retrieve_cart_information` the
`subtotal` field equals the exact sum of the `monthly_cost` fields of
the items list.  Proved as an invariant of the calculator's cart state
after any number of loop iterations, whatever the catalog serves: the
running `cart_subtotal` always equals the sum of the appended items'
monthly costs, so in particular any returned cart (which is exactly
this state) satisfies the equation. -/
theorem cart_subtotal_eq_sum_items (env : CartEnv) (cid : String) (fuel : Nat) :
    (retrieveCartRun env cid fuel).1.subtotal =
      sumMonthly (retrieveCartRun env cid fuel).1.items := by
  obtain ⟨ex, h, _⟩ := retrieveCartRun_spec env cid fuel
  rw [h]

/-- C9: every item the cart calculator ever includes comes from a
catalog resource whose `customer_id` label equals the requested
customer identifier; resources with a different label contribute
nothing (no cross-customer leakage). -/
theorem cart_items_from_matched (env : CartEnv) (cid : String) (fuel : Nat)
    (it : CartItem) (h : it ∈ (retrieveCartRun env cid fuel).1.items) :
    fromMatched env cid it := by
  obtain ⟨ex, he, hp⟩ := retrieveCartRun_spec env cid fuel
  rw [he] at h
  exact hp it h

/-- C10: every item the cart calculator ever includes has quantity
exactly 1; matched resources are never aggregated into one line item. -/
theorem cart_items_quantity_one (env : CartEnv) (cid : String) (fuel : Nat)
    (it : CartItem) (h : it ∈ (retrieveCartRun env cid fuel).1.items) :
    it.quantity = 1 := by
  obtain ⟨ex, he, hp⟩ := retrieveCartRun_spec env cid fuel
  rw [he] at h
  exact fromMatched_quantity env cid it (hp it h)

/-- A tagged instance used to witness C9. -/
def instW9 : Res :=
  { labels := [("customer_id", "123")],
    machineType := some "projects/p/zones/us-central1-a/machineTypes/n2-standard-2",
    name := some "web-1", typ := none, sizeGb := none }

/-- Catalog for the C9 witness: one matching instance, no disks. -/
def envW9 : CartEnv :=
  { instPages := [{ items := [instW9], nextToken := none }],
    diskPages := [{ items := [], nextToken := none }],
    pricing := fun s => if s = "n2-standard-2" then [100000000] else [] }

/-- The line item the C9 witness environment produces. -/
def itemW9 : CartItem :=
  { product_id := "n2-standard-2", name := "web-1", quantity := 1, monthly_cost := 73 }

theorem cart_items_from_matched_witness :
    itemW9 ∈ (retrieveCartRun envW9 "123" 1).1.items ∧ fromMatched envW9 "123" itemW9 :=
  ⟨by decide, cart_items_from_matched envW9 "123" 1 itemW9 (by decide)⟩

/-- A tagged instance used to witness C10. -/
def instW10 : Res :=
  { labels := [("customer_id", "77")],
    machineType := some "projects/p/zones/us-central1-a/machineTypes/c2-standard-8",
    name := some "batch-1", typ := none, sizeGb := none }

/-- Catalog for the C10 witness. -/
def envW10 : CartEnv :=
  { instPages := [{ items := [instW10], nextToken := none }],
    diskPages := [{ items := [], nextToken := none }],
    pricing := fun s => if s = "c2-standard-8" then [200000000] else [] }

/-- The line item the C10 witness environment produces. -/
def itemW10 : CartItem :=
  { product_id := "c2-standard-8", name := "batch-1", quantity := 1, monthly_cost := 146 }

theorem cart_items_quantity_one_witness :
    itemW10 ∈ (retrieveCartRun envW10 "77" 1).1.items ∧ itemW10.quantity = 1 :=
  ⟨by decide, cart_items_quantity_one envW10 "77" 1 itemW10 (by decide)⟩

/-! ### C2: the pagination defect -/

/-- Page-one instance of the C2 environment. -/
def instC2a : Res :=
  { labels := [("customer_id", "123")],
    machineType := some "projects/p/zones/us-central1-a/machineTypes/n2-standard-2",
    name := some "web-1", typ := none, sizeGb := none }

/-- Page-two instance of the C2 environment: per the claim it must be
visited and included. -/
def instC2b : Res :=
  { labels := [("customer_id", "123")],
    machineType := some "projects/p/zones/us-central1-a/machineTypes/n2-standard-4",
    name := some "web-2", typ := none, sizeGb := none }

/-- The C2 environment: the instance listing split across two
continuation pages, an empty single-page disk listing, and prices for
both machine types. -/
def envC2 : CartEnv :=
  { instPages := [{ items := [instC2a], nextToken := some 1 },
                  { items := [instC2b], nextToken := none }],
    diskPages := [{ items := [], nextToken := none }],
    pricing := fun s =>
      if s = "n2-standard-2" then [100000000]
      else if s = "n2-standard-4" then [100000000] else [] }

/-- The only item the mis-nested loop ever produces on `envC2`. -/
def itemC2 : CartItem :=
  { product_id := "n2-standard-2", name := "web-1", quantity := 1, monthly_cost := 73 }

/-- The cart state the run on `envC2` is stuck at. -/
def stC2 : CartState := { items := [itemC2], subtotal := 73 }

lemma iterC2_first :
    iter1 envC2 "123" (false, 0) { items := [], subtotal := 0 } =
      (stC2, some (true, 0), none) := by decide

lemma iterC2_stuck :
    iter1 envC2 "123" (true, 0) stC2 = (stC2, some (true, 0), none) := by decide

lemma loopC2_stuck :
    ∀ n, loop1 envC2 "123" n (some (true, 0)) stC2 =
      { st := stC2, req := some (true, 0), exited := false, err := none }
  | 0 => rfl
  | n + 1 => by
    simp only [loop1, iterC2_stuck]
    exact loopC2_stuck n

lemma runC2 (n : Nat) :
    retrieveCartRun envC2 "123" (n + 1) = (stC2, RunStatus.outOfFuel) := by
  unfold retrieveCartRun
  have h1 : loop1 envC2 "123" (n + 1) (some (false, 0)) { items := [], subtotal := 0 } =
      { st := stC2, req := some (true, 0), exited := false, err := none } := by
    simp only [loop1, iterC2_first]
    exact loopC2_stuck n
  rw [h1]
  rfl

/-- C2: refuted by the source's control flow.  On a catalog whose
instance listing spans two continuation pages (`envC2`), the calculator
does NOT visit each page exactly once: the per-item
`instances().list_next` result is discarded and `request` is
unconditionally reset to a fresh first-page disks listing at the end of
every iteration of the first while loop, so the run never terminates
(out of fuel at every fuel) and the page-two instance is never included
- the items list stays `[itemC2]` forever instead of the two-item
aggregate of the unpaginated catalog. -/
theorem cart_pagination_never_visits_page_two :
    ∀ n, (retrieveCartRun envC2 "123" n).2 = RunStatus.outOfFuel ∧
      (retrieveCartRun envC2 "123" (n + 1)).1.items = [itemC2] := by
  intro n
  constructor
  · cases n with
    | zero => decide
    | succ m => rw [runC2 m]
  · rw [runC2 n]
    rfl

/-! ### C3: the missing-SKU defect -/

/-- A matched instance whose machine type has no SKU in the billing
catalog. -/
def instC3bad : Res :=
  { labels := [("customer_id", "123")],
    machineType := some "projects/p/zones/us-central1-a/machineTypes/bad-type",
    name := some "web-0", typ := none, sizeGb := none }

/-- A matched instance that is priced normally. -/
def instC3good : Res :=
  { labels := [("customer_id", "123")],
    machineType := some "projects/p/zones/us-central1-a/machineTypes/n2-standard-2",
    name := some "web-2", typ := none, sizeGb := none }

/-- The C3 environment: one page with the unpriced instance first and a
priced instance after it. -/
def envC3 : CartEnv :=
  { instPages := [{ items := [instC3bad, instC3good], nextToken := none }],
    diskPages := [{ items := [], nextToken := none }],
    pricing := fun s => if s = "n2-standard-2" then [100000000] else [] }

/-- C3: refuted by the source.  When the billing catalog returns no SKU
for one matched resource (`instC3bad` in `envC3`), the `['skus'][0]`
indexing raises IndexError, the outer handler re-raises it, and the
whole call aborts with an empty cart: the priced instance `instC3good`
is not returned either, contrary to the claimed skip-and-continue
behaviour. -/
theorem cart_missing_sku_aborts_call :
    retrieveCartRun envC3 "123" 1 =
      ({ items := [], subtotal := 0 }, RunStatus.raised PyErr.indexError) := by decide

/-! ## Meeting invitations (`send_meeting_invitation`, tools.py lines 31-85)

The function ignores every parameter it receives: it overwrites
`sender_email`/`sender_password` from the configuration, re-reads the
receiver from `ToolContext.get_input`, rebuilds the subject and message,
sends the mail over SMTP - and then unconditionally calls itself with
the recomputed arguments (lines 80-81) before the `return` at line 85,
so the success dictionary is only ever produced by an activation whose
recursive call itself returned.  The model counts `sendmail` deliveries
and bounds the recursion depth with fuel; the per-activation UUID and
the SMTP session are irrelevant to the claims and the relay is assumed
to accept the message. -/

/-- Configuration and conversation inputs seen by the sender. -/
structure MailEnv where
  configSender : String
  configPassword : String
  receiverInput : String
  meetingId : String
  deriving DecidableEq, Repr

/-- The `{'status': ..., 'message': ...}` result dictionary. -/
structure SendResult where
  status : String
  message : String
  deriving DecidableEq, Repr

/-- `send_meeting_invitation(...)` with recursion depth bounded by
`fuel` and `sent` accumulating the number of `sendmail` calls performed
so far.  Result `none` means the recursion is still running when the
depth bound is hit; the five parameters of the source are accepted and
ignored, exactly as lines 49-57 overwrite them. -/
def sendMeetingInvitation (env : MailEnv)
    (sender_email sender_password receiver_email subject message : String) :
    Nat → Nat → Option SendResult × Nat
  | 0, sent => (none, sent)
  | fuel + 1, sent =>
    let sender := env.configSender
    let password := env.configPassword
    let receiver := env.receiverInput
    let subj := "Meeting Invitation!"
    let link := "https://meet.google.com/" ++ env.meetingId
    let msg := "Hello there! This issue needs further investigation. Please join the meeting session using the link below.\n" ++ link
    -- smtp_server.sendmail(...) : one delivery, then the unconditional
    -- self-invocation of lines 80-81
    match sendMeetingInvitation env sender password receiver subj msg fuel (sent + 1) with
    | (none, s) => (none, s)
    | (some _, s) =>
      (some { status := "success", message := "Link sent to " ++ receiver }, s)

/-- C4: refuted by the source.  `send_meeting_invitation` is not a
single, non-recursive send: for every recursion depth `fuel` it has
performed exactly `fuel` mail deliveries and still not returned any
status result - the unconditional self-invocation at lines 80-81 makes
the send count grow without bound and the success return unreachable. -/
theorem send_meeting_invitation_never_returns
    (env : MailEnv) (a b c d e : String) :
    ∀ (fuel sent : Nat),
      sendMeetingInvitation env a b c d e fuel sent = (none, sent + fuel) := by
  intro fuel
  induction fuel generalizing a b c d e with
  | zero =>
    intro sent
    simp [sendMeetingInvitation]
  | succ n ih =>
    intro sent
    simp only [sendMeetingInvitation, ih]
    refine congrArg (Prod.mk none) ?_
    omega

/-! ## CRM updates (`update_hubspot_crm`, tools.py lines 88-151) -/

/-- `hubspot.ApiException` escaping the function (the handler at lines
139-141 logs the error and re-raises it). -/
inductive CrmExn where
  | apiException (msg : String)
  deriving DecidableEq, Repr

/-- The `{'status': ..., 'message': ...}` result dictionary. -/
structure CrmResult where
  status : String
  message : String
  deriving DecidableEq, Repr

/-- The externals seen by the CRM updater: the confirmation signal
obtained from `ToolContext.get_confirmation`, and the outcome of the
`crm.contacts.basic_api.update` call when it is made (`ok` with the API
response, or `error` with the `ApiException` message). -/
structure CrmEnv where
  confirm : Bool
  crmOutcome : Except String String
  deriving Repr

/-- `update_hubspot_crm(customer_id, details)` (tools.py lines 88-151).
The second component counts outbound CRM update calls.  Without
confirmation the function returns the cancelled status before any
client is created (lines 119-120).  On confirmation it performs the
update call; an `ApiException` is logged and re-raised (lines 139-141),
while on success the detail-logging loop (lines 143-148, which cannot
fail on a plain mapping) returns the success status. -/
def updateHubspotCrm (env : CrmEnv) (customer_id : String)
    (details : List (String × String)) : Except CrmExn CrmResult × Nat :=
  if env.confirm = false then
    (Except.ok { status := "cancelled", message := "Update cancelled by user" }, 0)
  else
    match env.crmOutcome with
    | Except.error msg => (Except.error (CrmExn.apiException msg), 1)
    | Except.ok _resp =>
      (Except.ok { status := "success", message := "HubSpot record updated." }, 1)

/-- C7: when the confirmation signal is withheld, `update_hubspot_crm`
returns the cancelled status and performs zero outbound CRM calls. -/
theorem crm_withheld_confirmation_cancelled (env : CrmEnv) (customer_id : String)
    (details : List (String × String)) (h : env.confirm = false) :
    updateHubspotCrm env customer_id details =
      (Except.ok { status := "cancelled", message := "Update cancelled by user" }, 0) := by
  simp [updateHubspotCrm, h]

/-- A CRM environment with confirmation withheld, for the C7 witness. -/
def envC7 : CrmEnv := { confirm := false, crmOutcome := Except.ok "resp" }

theorem crm_withheld_confirmation_cancelled_witness :
    envC7.confirm = false ∧
    updateHubspotCrm envC7 "123" [("appointment_date", "2024-07-25")] =
      (Except.ok { status := "cancelled", message := "Update cancelled by user" }, 0) :=
  ⟨rfl, crm_withheld_confirmation_cancelled envC7 "123" [("appointment_date", "2024-07-25")] rfl⟩

/-- A confirmed CRM environment whose update call fails, for the C8
counterexample. -/
def envC8x : CrmEnv := { confirm := true, crmOutcome := Except.error "boom" }

/-- C8 counterexample: on a confirmed invocation whose CRM call fails,
`update_hubspot_crm` does not return a status-`error` result - the
`ApiException` is re-raised by line 141 and propagates to the caller as
an uncaught exception. -/
theorem crm_api_failure_propagates :
    envC8x.confirm = true ∧
    (updateHubspotCrm envC8x "123" [("k", "v")]).1 =
      Except.error (CrmExn.apiException "boom") := by
  constructor
  · rfl
  · rfl

/-- C8 amended: on a confirmed invocation, `update_hubspot_crm` makes
exactly one CRM update call and returns the success status when the
call succeeds; when the call raises an `ApiException`, the exception is
logged and re-raised to the caller (it propagates; no status-`error`
result is produced on this path). -/
theorem crm_confirmed_result (env : CrmEnv) (customer_id : String)
    (details : List (String × String)) (h : env.confirm = true) :
    updateHubspotCrm env customer_id details =
      (match env.crmOutcome with
       | Except.ok _ => Except.ok { status := "success", message := "HubSpot record updated." }
       | Except.error msg => Except.error (CrmExn.apiException msg), 1) := by
  unfold updateHubspotCrm
  rw [h]
  simp only [Bool.true_eq_false, if_false]
  cases env.crmOutcome <;> rfl

/-- A confirmed CRM environment whose update call succeeds, for the C8
witness. -/
def envC8w : CrmEnv := { confirm := true, crmOutcome := Except.ok "resp" }

theorem crm_confirmed_result_witness :
    envC8w.confirm = true ∧
    updateHubspotCrm envC8w "123" [("appointment_date", "2024-07-25")] =
      (Except.ok { status := "success", message := "HubSpot record updated." }, 1) :=
  ⟨rfl, crm_confirmed_result envC8w "123" [("appointment_date", "2024-07-25")] rfl⟩

/-! ## Product recommendations (`get_product_recommendations`, tools.py lines 246-345)

The numeric inputs arrive as strings from `ToolContext.get_input` and
are parsed inside the filter conditions - `int(vcpu_count)` /
`float(memory_needed)` raise `ValueError` on non-numeric text, and the
parse is only reached when the preceding conjuncts of the condition are
true (Python `and` short-circuits).  The parsers below model the CPython
literal forms used here: optional sign and decimal digits for `int`,
optional sign, decimal digits and one fractional point for `float`
(exponents and special values are out of scope for the claims).  The
machine-type and disk-type listings are single-page here, matching the
source, which calls `.execute()` once on each without paging. -/

/-- Accumulate decimal digits; `none` on any non-digit character. -/
def digitsToNatAux : List Char → Nat → Option Nat
  | [], acc => some acc
  | c :: cs, acc =>
    if '0' ≤ c ∧ c ≤ '9' then digitsToNatAux cs (acc * 10 + (c.toNat - 48))
    else none

/-- Whitespace stripped by Python's numeric constructors. -/
def isPySpace (c : Char) : Bool :=
  c = ' ' ∨ c = '\t' ∨ c = '\n' ∨ c = '\r'

/-- `str.strip()` of the surrounding whitespace. -/
def trimChars (l : List Char) : List Char :=
  ((l.dropWhile isPySpace).reverse.dropWhile isPySpace).reverse

/-- `int(s)` on a trimmed character list. -/
def pyIntChars : List Char → Option Int
  | [] => none
  | '-' :: rest =>
    if rest.isEmpty then none else (digitsToNatAux rest 0).map (fun n => -(n : Int))
  | '+' :: rest =>
    if rest.isEmpty then none else (digitsToNatAux rest 0).map (fun n => (n : Int))
  | l => (digitsToNatAux l 0).map (fun n => (n : Int))

/-- Python `int(s)`: `some` of the parsed value, `none` when the call
raises `ValueError`. -/
def pyInt (s : String) : Option Int :=
  pyIntChars (trimChars s.data)

/-- Split at the first '.' when one occurs. -/
def splitAtDot : List Char → List Char × Option (List Char)
  | [] => ([], none)
  | '.' :: rest => ([], some rest)
  | c :: rest =>
    let (a, b) := splitAtDot rest
    (c :: a, b)

/-- `float(s)` on an unsigned trimmed character list. -/
def pyFloatChars (l : List Char) : Option ℚ :=
  match splitAtDot l with
  | (ip, none) =>
    if ip.isEmpty then none
    else (digitsToNatAux ip 0).map (fun n => (n : ℚ))
  | (ip, some fp) =>
    if fp.contains '.' then none
    else if ip.isEmpty ∧ fp.isEmpty then none
    else
      match digitsToNatAux ip 0, digitsToNatAux fp 0 with
      | some a, some b => some ((a : ℚ) + (b : ℚ) / ((10 : ℚ) ^ fp.length))
      | _, _ => none

/-- Python `float(s)`: `some` of the parsed value, `none` when the call
raises `ValueError`. -/
def pyFloat (s : String) : Option ℚ :=
  match trimChars s.data with
  | '-' :: rest => (pyFloatChars rest).map (fun q => -q)
  | '+' :: rest => pyFloatChars rest
  | l => pyFloatChars l

/-- ASCII `str.lower()`. -/
def lowerChar (c : Char) : Char :=
  if 'A' ≤ c ∧ c ≤ 'Z' then Char.ofNat (c.toNat + 32) else c

/-- `s.lower()` (the workload values compared against are ASCII). -/
def pyLower (s : String) : String :=
  ⟨s.data.map lowerChar⟩

/-- Whether `pat` is a prefix of the text. -/
def charsStartWith : List Char → List Char → Bool
  | [], _ => true
  | _ :: _, [] => false
  | p :: ps, c :: cs => p = c && charsStartWith ps cs

/-- Whether `pat` occurs inside the text. -/
def charsContain (pat : List Char) : List Char → Bool
  | [] => charsStartWith pat []
  | c :: cs => charsStartWith pat (c :: cs) || charsContain pat cs

/-- Python's substring test `pat in s`. -/
def strContainsSub (s pat : String) : Bool :=
  charsContain pat.data s.data

/-- A machine type served by the compute catalog. -/
structure Machine where
  name : String
  guestCpus : Int
  memoryMb : Int
  deriving DecidableEq, Repr

/-- A disk type served by the compute catalog. -/
structure DiskType where
  name : String
  deriving DecidableEq, Repr

/-- The externals seen by the recommendation engine: the four
conversation inputs and the machine-type / disk-type listings of the
entered zone. -/
structure RecEnv where
  workloadInput : String
  vcpuInput : String
  memoryInput : String
  storageInput : String
  machineTypes : List Machine
  diskTypes : List DiskType
  deriving Repr

/-- The `specs` mapping of a recommendation: machine entries carry
`cpus`/`memory_gb` (lines 296-299, 312-315), disk entries carry
`type`/`size_gb` (lines 335-338, with `size_gb` the raw storage input
string, never parsed). -/
inductive RecSpecs where
  | machine (cpus : Int) (memory_gb : ℚ)
  | disk (typ : String) (size_gb : String)
  deriving DecidableEq, Repr

/-- One recommendation dictionary. -/
structure RecItem where
  product_id : String
  name : String
  description : String
  specs : RecSpecs
  deriving DecidableEq, Repr

/-- Decimal rendering of a rational for the embedded f-strings (the
byte format differs from Python's float `repr`; no claim inspects it). -/
def ratStr (q : ℚ) : String :=
  if q.den = 1 then toString q.num else toString q.num ++ "/" ++ toString q.den

/-- The machine recommendation dictionary built at lines 292-300 /
308-316. -/
def mkMachineRec (family : String) (m : Machine) : RecItem :=
  { product_id := m.name
    name := m.name ++ " Instance"
    description := family ++ " instance with " ++ toString m.guestCpus ++
      " vCPUs and " ++ ratStr ((m.memoryMb : ℚ) / 1024) ++ "GB memory"
    specs := RecSpecs.machine m.guestCpus ((m.memoryMb : ℚ) / 1024) }

/-- The web-server branch (lines 286-300): keep machines whose name
contains `n2-standard` with `guestCpus <= int(vcpu_count) * 1.5` and
`memoryMb/1024 <= float(memory_needed) * 1.5`; the parses run inside
the short-circuited condition and raise `ValueError` on bad input. -/
def filterWeb (env : RecEnv) : List Machine → List RecItem → Except PyErr (List RecItem)
  | [], acc => Except.ok acc
  | m :: ms, acc =>
    if strContainsSub m.name "n2-standard" then
      match pyInt env.vcpuInput with
      | none => Except.error PyErr.valueError
      | some v =>
        if (m.guestCpus : ℚ) ≤ (v : ℚ) * (3 / 2) then
          match pyFloat env.memoryInput with
          | none => Except.error PyErr.valueError
          | some q =>
            if (m.memoryMb : ℚ) / 1024 ≤ q * (3 / 2) then
              filterWeb env ms (acc ++ [mkMachineRec "General-purpose" m])
            else filterWeb env ms acc
        else filterWeb env ms acc
    else filterWeb env ms acc

/-- The data-processing branch (lines 302-316): keep machines whose
name contains `c2-standard` with `guestCpus >= int(vcpu_count)` (an
integer comparison) and `memoryMb/1024 >= float(memory_needed)`. -/
def filterDp (env : RecEnv) : List Machine → List RecItem → Except PyErr (List RecItem)
  | [], acc => Except.ok acc
  | m :: ms, acc =>
    if strContainsSub m.name "c2-standard" then
      match pyInt env.vcpuInput with
      | none => Except.error PyErr.valueError
      | some v =>
        if v ≤ m.guestCpus then
          match pyFloat env.memoryInput with
          | none => Except.error PyErr.valueError
          | some q =>
            if q ≤ (m.memoryMb : ℚ) / 1024 then
              filterDp env ms (acc ++ [mkMachineRec "Compute-optimized" m])
            else filterDp env ms acc
          else filterDp env ms acc
    else filterDp env ms acc

/-- The storage recommendation dictionary of lines 331-339. -/
def mkDiskRec (env : RecEnv) (d : DiskType) : RecItem :=
  { product_id := d.name
    name := "Persistent Disk"
    description := "Storage optimized for " ++ env.workloadInput
    specs := RecSpecs.disk (if strContainsSub d.name "ssd" then "SSD" else "Standard")
      env.storageInput }

/-- The disk loop of lines 328-339: SSD disks for data-processing,
standard disks for web-server, sized to the raw storage input. -/
def diskRecs (env : RecEnv) : List DiskType → List RecItem
  | [] => []
  | d :: ds =>
    if (strContainsSub d.name "pd-ssd" ∧ pyLower env.workloadInput = "data-processing") ∨
       (strContainsSub d.name "pd-standard" ∧ pyLower env.workloadInput = "web-server") then
      mkDiskRec env d :: diskRecs env ds
    else diskRecs env ds

/-- The machine-type scan selected by the workload value (lines
286-316); any other workload leaves the recommendation list empty. -/
def machineScan (env : RecEnv) : Except PyErr (List RecItem) :=
  if pyLower env.workloadInput = "web-server" then filterWeb env env.machineTypes []
  else if pyLower env.workloadInput = "data-processing" then filterDp env env.machineTypes []
  else Except.ok []

/-- `get_product_recommendations(customer_id)` (tools.py lines 246-345).
The second component counts catalog `.execute()` calls: the
machine-type listing runs before any input is parsed (lines 277-282),
so it is issued even when a later parse raises; the disk-type listing
(lines 319-323) runs only when the scan finished, after which the disk
loop appends the storage recommendations.  An exception from the scan
is logged and re-raised by the outer handler (lines 343-345). -/
def getProductRecommendations (env : RecEnv) (customer_id : String) :
    Except PyErr (List RecItem) × Nat :=
  match machineScan env with
  | Except.error e => (Except.error e, 1)
  | Except.ok recs => (Except.ok (recs ++ diskRecs env env.diskTypes), 2)

/-! ### Lemmas about the recommendation filters -/

lemma filterWeb_mem (env : RecEnv) :
    ∀ (ms : List Machine) (acc out : List RecItem),
      filterWeb env ms acc = Except.ok out → ∀ it ∈ out,
        it ∈ acc ∨ ∃ m v q, pyInt env.vcpuInput = some v ∧ pyFloat env.memoryInput = some q ∧
          it = mkMachineRec "General-purpose" m ∧
          (m.guestCpus : ℚ) ≤ (v : ℚ) * (3 / 2) ∧ (m.memoryMb : ℚ) / 1024 ≤ q * (3 / 2) := by
  intro ms
  induction ms with
  | nil =>
    intro acc out hok it hit
    simp only [filterWeb, Except.ok.injEq] at hok
    subst hok
    exact Or.inl hit
  | cons m ms ih =>
    intro acc out hok it hit
    by_cases h1 : strContainsSub m.name "n2-standard" = true
    · rw [filterWeb, if_pos h1] at hok
      rcases Option.eq_none_or_eq_some (pyInt env.vcpuInput) with hv | ⟨v, hv⟩
      · simp only [hv] at hok
        exact absurd hok (by simp)
      · simp only [hv] at hok
        by_cases h2 : (m.guestCpus : ℚ) ≤ (v : ℚ) * (3 / 2)
        · rw [if_pos h2] at hok
          rcases Option.eq_none_or_eq_some (pyFloat env.memoryInput) with hq | ⟨q, hq⟩
          · simp only [hq] at hok
            exact absurd hok (by simp)
          · simp only [hq] at hok
            by_cases h3 : (m.memoryMb : ℚ) / 1024 ≤ q * (3 / 2)
            · rw [if_pos h3] at hok
              rcases ih _ _ hok it hit with hin | hb
              · rcases List.mem_append.mp hin with hin | hin
                · exact Or.inl hin
                · rw [List.mem_singleton] at hin
                  exact Or.inr ⟨m, v, q, hv, hq, hin, h2, h3⟩
              · exact Or.inr hb
            · rw [if_neg h3] at hok
              exact ih _ _ hok it hit
        · rw [if_neg h2] at hok
          exact ih _ _ hok it hit
    · rw [filterWeb, if_neg h1] at hok
      exact ih _ _ hok it hit

lemma filterDp_mem (env : RecEnv) :
    ∀ (ms : List Machine) (acc out : List RecItem),
      filterDp env ms acc = Except.ok out → ∀ it ∈ out,
        it ∈ acc ∨ ∃ m v q, pyInt env.vcpuInput = some v ∧ pyFloat env.memoryInput = some q ∧
          it = mkMachineRec "Compute-optimized" m ∧
          v ≤ m.guestCpus ∧ q ≤ (m.memoryMb : ℚ) / 1024 := by
  intro ms
  induction ms with
  | nil =>
    intro acc out hok it hit
    simp only [filterDp, Except.ok.injEq] at hok
    subst hok
    exact Or.inl hit
  | cons m ms ih =>
    intro acc out hok it hit
    by_cases h1 : strContainsSub m.name "c2-standard" = true
    · rw [filterDp, if_pos h1] at hok
      rcases Option.eq_none_or_eq_some (pyInt env.vcpuInput) with hv | ⟨v, hv⟩
      · simp only [hv] at hok
        exact absurd hok (by simp)
      · simp only [hv] at hok
        by_cases h2 : v ≤ m.guestCpus
        · rw [if_pos h2] at hok
          rcases Option.eq_none_or_eq_some (pyFloat env.memoryInput) with hq | ⟨q, hq⟩
          · simp only [hq] at hok
            exact absurd hok (by simp)
          · simp only [hq] at hok
            by_cases h3 : q ≤ (m.memoryMb : ℚ) / 1024
            · rw [if_pos h3] at hok
              rcases ih _ _ hok it hit with hin | hb
              · rcases List.mem_append.mp hin with hin | hin
                · exact Or.inl hin
                · rw [List.mem_singleton] at hin
                  exact Or.inr ⟨m, v, q, hv, hq, hin, h2, h3⟩
              · exact Or.inr hb
            · rw [if_neg h3] at hok
              exact ih _ _ hok it hit
        · rw [if_neg h2] at hok
          exact ih _ _ hok it hit
    · rw [filterDp, if_neg h1] at hok
      exact ih _ _ hok it hit

lemma diskRecs_specs (env : RecEnv) :
    ∀ (ds : List DiskType) (it : RecItem), it ∈ diskRecs env ds →
      ∃ t s, it.specs = RecSpecs.disk t s := by
  intro ds
  induction ds with
  | nil =>
    intro it hit
    simp [diskRecs] at hit
  | cons d ds ih =>
    intro it hit
    rw [diskRecs] at hit
    by_cases hc : (strContainsSub d.name "pd-ssd" ∧ pyLower env.workloadInput = "data-processing") ∨
        (strContainsSub d.name "pd-standard" ∧ pyLower env.workloadInput = "web-server")
    · rw [if_pos hc] at hit
      rcases List.mem_cons.mp hit with hit | hit
      · subst hit
        exact ⟨_, _, rfl⟩
      · exact ih it hit
    · rw [if_neg hc] at hit
      exact ih it hit

/-- C5: every machine-type recommendation satisfies the
workload-specific bound of the source filters - with workload
`web-server`, cpus at most 1.5 times and memory_gb at most 1.5 times
the parsed requested values; with workload `data-processing`, cpus and
memory_gb at least the parsed requested values. -/
theorem rec_machine_items_respect_bounds (env : RecEnv) (customer_id : String)
    (recs : List RecItem) (it : RecItem) (c : Int) (mem : ℚ)
    (hok : (getProductRecommendations env customer_id).1 = Except.ok recs)
    (hmem : it ∈ recs) (hspec : it.specs = RecSpecs.machine c mem) :
    (pyLower env.workloadInput = "web-server" →
      ∃ v q, pyInt env.vcpuInput = some v ∧ pyFloat env.memoryInput = some q ∧
        (c : ℚ) ≤ (v : ℚ) * (3 / 2) ∧ mem ≤ q * (3 / 2)) ∧
    (pyLower env.workloadInput = "data-processing" →
      ∃ v q, pyInt env.vcpuInput = some v ∧ pyFloat env.memoryInput = some q ∧
        v ≤ c ∧ q ≤ mem) := by
  unfold getProductRecommendations at hok
  cases hms : machineScan env with
  | error e =>
    rw [hms] at hok
    exact absurd hok (by simp)
  | ok recs0 =>
    rw [hms] at hok
    simp only [Except.ok.injEq] at hok
    subst hok
    rcases List.mem_append.mp hmem with hin | hin
    · -- a machine item from the workload scan
      unfold machineScan at hms
      by_cases hw : pyLower env.workloadInput = "web-server"
      · rw [if_pos hw] at hms
        rcases filterWeb_mem env env.machineTypes [] recs0 hms it hin with habs | hb
        · simp at habs
        · obtain ⟨m, v, q, hv, hq, hmk, hc1, hc2⟩ := hb
          constructor
          · intro _
            refine ⟨v, q, hv, hq, ?_, ?_⟩
            · have : it.specs = RecSpecs.machine m.guestCpus ((m.memoryMb : ℚ) / 1024) := by
                rw [hmk]; rfl
              rw [hspec] at this
              injection this with e1 e2
              rw [e1]
              exact hc1
            · have : it.specs = RecSpecs.machine m.guestCpus ((m.memoryMb : ℚ) / 1024) := by
                rw [hmk]; rfl
              rw [hspec] at this
              injection this with e1 e2
              rw [e2]
              exact hc2
          · intro hd
            rw [hw] at hd
            exact absurd hd (by decide)
      · rw [if_neg hw] at hms
        by_cases hd : pyLower env.workloadInput = "data-processing"
        · rw [if_pos hd] at hms
          rcases filterDp_mem env env.machineTypes [] recs0 hms it hin with habs | hb
          · simp at habs
          · obtain ⟨m, v, q, hv, hq, hmk, hc1, hc2⟩ := hb
            constructor
            · intro hw2
              exact absurd hw2 hw
            · intro _
              refine ⟨v, q, hv, hq, ?_, ?_⟩
              · have : it.specs = RecSpecs.machine m.guestCpus ((m.memoryMb : ℚ) / 1024) := by
                  rw [hmk]; rfl
                rw [hspec] at this
                injection this with e1 e2
                rw [e1]
                exact hc1
              · have : it.specs = RecSpecs.machine m.guestCpus ((m.memoryMb : ℚ) / 1024) := by
                  rw [hmk]; rfl
                rw [hspec] at this
                injection this with e1 e2
                rw [e2]
                exact hc2
        · rw [if_neg hd] at hms
          simp only [Except.ok.injEq] at hms
          subst hms
          simp at hin
    · -- a disk item: its specs contradict the machine shape
      obtain ⟨t, s, hds⟩ := diskRecs_specs env env.diskTypes it hin
      rw [hspec] at hds
      exact absurd hds (by simp)

/-- A machine type qualifying for the C5 witness request. -/
def machW5 : Machine := { name := "n2-standard-4", guestCpus := 4, memoryMb := 16384 }

/-- The C5 witness request: web-server workload, 4 vCPUs, 16 GB. -/
def envW5 : RecEnv :=
  { workloadInput := "web-server", vcpuInput := "4", memoryInput := "16",
    storageInput := "100", machineTypes := [machW5],
    diskTypes := [{ name := "pd-standard" }] }

/-- The machine recommendation the C5 witness run returns. -/
def itW5 : RecItem := mkMachineRec "General-purpose" machW5

/-- The full recommendation list the C5 witness run returns. -/
def recsW5 : List RecItem := [itW5, mkDiskRec envW5 { name := "pd-standard" }]

theorem rec_machine_items_respect_bounds_witness :
    ((getProductRecommendations envW5 "123").1 = Except.ok recsW5 ∧ itW5 ∈ recsW5 ∧
      itW5.specs = RecSpecs.machine 4 16) ∧
    ((pyLower envW5.workloadInput = "web-server" →
        ∃ v q, pyInt envW5.vcpuInput = some v ∧ pyFloat envW5.memoryInput = some q ∧
          ((4 : Int) : ℚ) ≤ (v : ℚ) * (3 / 2) ∧ (16 : ℚ) ≤ q * (3 / 2)) ∧
     (pyLower envW5.workloadInput = "data-processing" →
        ∃ v q, pyInt envW5.vcpuInput = some v ∧ pyFloat envW5.memoryInput = some q ∧
          v ≤ (4 : Int) ∧ q ≤ (16 : ℚ))) :=
  ⟨⟨by rfl, by decide, by decide⟩,
   rec_machine_items_respect_bounds envW5 "123" recsW5 itW5 4 16 (by rfl) (by decide) (by decide)⟩

/-- The C6 request: web-server workload with the non-numeric vCPU text
`"four"`, against a catalog containing a matching-family machine. -/
def envC6 : RecEnv :=
  { workloadInput := "web-server", vcpuInput := "four", memoryInput := "16",
    storageInput := "100", machineTypes := [machW5], diskTypes := [] }

/-- C6: refuted by the source.  With `vcpu_count="four"` the function
does not fail with a validation error before any catalog call: the
machine-type listing has already been executed (one catalog call) when
`int("four")` raises inside the filter condition, and the `ValueError`
is logged and re-raised - an uncaught type/value error, not a
structured validation result. -/
theorem rec_malformed_vcpu_calls_catalog_then_raises :
    getProductRecommendations envC6 "123" = (Except.error PyErr.valueError, 1) := by rfl
